import Mathlib

/-!
Verification of the poll server actions (`app/lib/actions/poll-actions.ts`).

The TypeScript handlers are shallowly embedded as pure Lean functions.
The Supabase backend is modelled as an explicit in-memory database
(`Db`), the ambient authenticated session as an explicit `Session`
argument, and every handler additionally returns the list of backend
calls it performed, so that "returns without touching the backend" is
a provable statement.  JavaScript strings are modelled as Lean
`String`s with an explicit UTF-16 length function, JavaScript numbers
(only used for the vote's option index) as either an integral value or
a non-integral one, and the two handlers that can raise a `TypeError`
(calling `.trim()` on the `null` returned by `formData.get` for a
missing field) return `Except JsError _`.
-/

namespace AlxPolly

/-- The exact character set JavaScript `String.prototype.trim` removes:
`WhiteSpace` (tab, VT, FF, space, NBSP, ZWNBSP and the Unicode `Zs`
category) together with the line terminators LF, CR, LS, PS. -/
def jsWhitespaceCodes : List Nat :=
  [9, 10, 11, 12, 13, 32, 160, 0x1680,
   0x2000, 0x2001, 0x2002, 0x2003, 0x2004, 0x2005, 0x2006, 0x2007,
   0x2008, 0x2009, 0x200A, 0x2028, 0x2029, 0x202F, 0x205F, 0x3000, 0xFEFF]

def isJsSpace (c : Char) : Bool :=
  jsWhitespaceCodes.contains c.toNat

/-- JavaScript `s.trim()`: drop leading and trailing whitespace. -/
def jsTrim (s : String) : String :=
  String.mk (((s.data.dropWhile isJsSpace).reverse.dropWhile isJsSpace).reverse)

/-- JavaScript `s.length` counts UTF-16 code units: astral code points
(above `0xFFFF`) count twice. -/
def jsLength (s : String) : Nat :=
  (s.data.map (fun c => if c.toNat < 65536 then 1 else 2)).sum

/-- The character class `[<>"'&]` of the sanitizer's regex
(codes 60, 62, 34, 39, 38). -/
def isRemovedChar (c : Char) : Bool :=
  c = '<' || c = '>' || c = Char.ofNat 34 || c = Char.ofNat 39 || c = '&'

/-- Global regex replacement by the empty string: each matching
character is dropped, every other character is kept. -/
def replaceRemoved : List Char → List Char
  | [] => []
  | c :: cs => if isRemovedChar c then replaceRemoved cs else c :: replaceRemoved cs

/-- `sanitizeInput` from `poll-actions.ts`:
`input.trim().replace(/[<>"'&]/g, '')`. -/
def sanitizeInput (input : String) : String :=
  String.mk (replaceRemoved (jsTrim input).data)

/-- `validatePollInput` from `poll-actions.ts`.  `!question` is the
JavaScript falsiness test, true exactly for the empty string. -/
def validatePollInput (question : String) (options : List String) : Option String :=
  if question.isEmpty || jsLength (jsTrim question) < 3 then
    some "Question must be at least 3 characters long."
  else if options.length < 2 then
    some "Please provide at least two options."
  else if options.any (fun opt => opt.isEmpty || jsLength (jsTrim opt) == 0) then
    some "All options must contain valid text."
  else if jsLength question > 500 then
    some "Question is too long (max 500 characters)."
  else if options.any (fun opt => jsLength opt > 200) then
    some "Options are too long (max 200 characters each)."
  else
    none

def isHexDigit (c : Char) : Bool :=
  ('0' ≤ c && c ≤ '9') || ('a' ≤ c && c ≤ 'f') || ('A' ≤ c && c ≤ 'F')

/-- Split a character list on the hyphen character, keeping empty
groups, exactly as the anchored regex's `-` separators partition the
candidate string. -/
def splitDash : List Char → List (List Char)
  | [] => [[]]
  | c :: rest =>
    let gs := splitDash rest
    if c = '-' then [] :: gs
    else
      match gs with
      | g :: gs' => (c :: g) :: gs'
      | [] => [[c]]

def hexGroup (cs : List Char) (n : Nat) : Bool :=
  cs.length == n && cs.all isHexDigit

/-- The anchored case-insensitive regex
`^[0-9a-f]{8}-[0-9a-f]{4}-[0-9a-f]{4}-[0-9a-f]{4}-[0-9a-f]{12}$/i`
used by `getPollById`, `submitVote`, `deletePoll` and `updatePoll`:
exactly five hyphen-separated groups of hex digits with lengths
8, 4, 4, 4, 12. -/
def isValidUUID (s : String) : Bool :=
  match splitDash s.data with
  | [g1, g2, g3, g4, g5] =>
      hexGroup g1 8 && hexGroup g2 4 && hexGroup g3 4 && hexGroup g4 4 && hexGroup g5 12
  | _ => false

/-! ## Data model

`polls(id, user_id, question, options[], created_at)` and
`votes(id, poll_id, user_id?, option_index, created_at)`.  The
database generates `id` and `created_at` for inserted rows; a vote's
own `id` and `created_at` are never read by any handler, so the `Vote`
row keeps only the fields the handlers use. -/

structure Poll where
  id : String
  user_id : String
  question : String
  options : List String
  created_at : Nat
deriving Repr, DecidableEq

structure Vote where
  poll_id : String
  user_id : Option String
  option_index : Int
deriving Repr, DecidableEq

structure Db where
  polls : List Poll
  votes : List Vote
deriving Repr, DecidableEq

/-- The ambient session, read by `supabase.auth.getUser()`:
the call can fail (`authError`), find no user (`anon`), or return the
authenticated user's id. -/
inductive Session
  | authError
  | anon
  | user (uid : String)
deriving Repr, DecidableEq

/-- The `data.user` field of `auth.getUser()`: `null` both when there
is no session and when the call errors (call sites that destructure
only `data: { user }` treat the two alike). -/
def Session.currentUser : Session → Option String
  | .authError => none
  | .anon => none
  | .user uid => some uid

/-- A JavaScript number as used for the vote's option index: either an
integral value or some non-integral number (fraction, NaN, infinity),
which `Number.isInteger` rejects. -/
inductive JsNumber
  | int (n : Int)
  | nonInt
deriving Repr, DecidableEq

/-- Backend calls a handler can perform, for stating that a rejection
happens before any backend access. -/
inductive BackendOp
  | authGetUser
  | selectPolls
  | selectVotes
  | insertPoll
  | insertVote
  | deletePolls
  | updatePolls
deriving Repr, DecidableEq

/-- `.single()` on a filtered select: `data` is the row when exactly
one row matches, and `null` (with an error) when zero or several
match. -/
def singleRow {α : Type} (rows : List α) : Option α :=
  match rows with
  | [r] => some r
  | _ => none

/-- A `FormData` holding the fields the poll forms submit:
`get("question")` is `null` when the field is absent, and
`getAll("options")` is the (possibly empty) list of option values. -/
structure FormData where
  question : Option String
  options : List String
deriving Repr, DecidableEq

/-- A JavaScript exception escaping a handler; the only one these
handlers can raise is the `TypeError` from calling `.trim()` on
`null`. -/
inductive JsError
  | typeError
deriving Repr, DecidableEq

/-- Result shape of `createPoll`, `submitVote`, `deletePoll`,
`updatePoll`: `{ error: string | null }`. -/
structure ActionResult where
  error : Option String
deriving Repr, DecidableEq

/-- Result shape of `getPollById`: `{ poll, error }`. -/
structure PollResult where
  poll : Option Poll
  error : Option String
deriving Repr, DecidableEq

/-- Result shape of `getUserPolls`: `{ polls, error }`. -/
structure PollListResult where
  polls : List Poll
  error : Option String
deriving Repr, DecidableEq

/-! ## Handlers -/

/-- The option pipeline shared by `createPoll` and `updatePoll`:
`formData.getAll("options").filter(Boolean).map(sanitizeInput)`.
`Boolean` is falsy exactly on the empty string. -/
def processOptions (raw : List String) : List String :=
  (raw.filter (fun s => !s.isEmpty)).map sanitizeInput

/-- `createPoll` from `poll-actions.ts`.  `newId` and `now` stand for
the id and timestamp the database generates for the inserted row.
When the `question` field is absent, `formData.get` returns `null` and
`sanitizeInput` raises a `TypeError` on `null.trim()`. -/
def createPoll (fd : FormData) (sess : Session) (db : Db) (newId : String) (now : Nat) :
    Except JsError (ActionResult × Db × List BackendOp) :=
  match fd.question with
  | none => .error .typeError
  | some rawQ =>
    let question := sanitizeInput rawQ
    let options := processOptions fd.options
    match validatePollInput question options with
    | some msg => .ok ({ error := some msg }, db, [])
    | none =>
      match sess with
      | .authError =>
          .ok ({ error := some "Authentication error. Please try again." }, db, [.authGetUser])
      | .anon =>
          .ok ({ error := some "You must be logged in to create a poll." }, db, [.authGetUser])
      | .user uid =>
          .ok ({ error := none },
               { db with polls := db.polls ++ [⟨newId, uid, question, options, now⟩] },
               [.authGetUser, .insertPoll])

/-- Descending insertion by `created_at`, embedding
`.order("created_at", { ascending: false })`. -/
def insertByCreatedDesc (p : Poll) : List Poll → List Poll
  | [] => [p]
  | q :: rest =>
      if q.created_at ≤ p.created_at then p :: q :: rest
      else q :: insertByCreatedDesc p rest

def sortByCreatedDesc (l : List Poll) : List Poll :=
  l.foldr insertByCreatedDesc []

/-- `getUserPolls` from `poll-actions.ts`. -/
def getUserPolls (sess : Session) (db : Db) : PollListResult × Db × List BackendOp :=
  match sess.currentUser with
  | none => ({ polls := [], error := some "Not authenticated" }, db, [.authGetUser])
  | some uid =>
      ({ polls := sortByCreatedDesc (db.polls.filter (fun p => p.user_id == uid)),
         error := none }, db, [.authGetUser, .selectPolls])

/-- `getPollById` from `poll-actions.ts`. -/
def getPollById (id : String) (db : Db) : PollResult × Db × List BackendOp :=
  if !isValidUUID id then
    ({ poll := none, error := some "Invalid poll ID format." }, db, [])
  else
    match singleRow (db.polls.filter (fun p => p.id == id)) with
    | none => ({ poll := none, error := some "Poll not found." }, db, [.selectPolls])
    | some p => ({ poll := some p, error := none }, db, [.selectPolls])

/-- `submitVote` from `poll-actions.ts`.  The guard
`!Number.isInteger(optionIndex) || optionIndex < 0` rejects
non-integral numbers (short-circuiting before the sign test) and
negative integers. -/
def submitVote (pollId : String) (optionIndex : JsNumber) (sess : Session) (db : Db) :
    ActionResult × Db × List BackendOp :=
  if !isValidUUID pollId then
    ({ error := some "Invalid poll ID format." }, db, [])
  else
    match optionIndex with
    | .nonInt => ({ error := some "Invalid option selection." }, db, [])
    | .int idx =>
      if idx < 0 then
        ({ error := some "Invalid option selection." }, db, [])
      else
        match singleRow (db.polls.filter (fun p => p.id == pollId)) with
        | none => ({ error := some "Poll not found." }, db, [.authGetUser, .selectPolls])
        | some poll =>
          if (poll.options.length : Int) ≤ idx then
            ({ error := some "Invalid option selection." }, db, [.authGetUser, .selectPolls])
          else
            match sess.currentUser with
            | some uid =>
              match singleRow (db.votes.filter
                  (fun v => v.poll_id == pollId && v.user_id == some uid)) with
              | some _ =>
                  ({ error := some "You have already voted on this poll." }, db,
                   [.authGetUser, .selectPolls, .selectVotes])
              | none =>
                  ({ error := none },
                   { db with votes := db.votes ++ [⟨pollId, some uid, idx⟩] },
                   [.authGetUser, .selectPolls, .selectVotes, .insertVote])
            | none =>
                ({ error := none },
                 { db with votes := db.votes ++ [⟨pollId, none, idx⟩] },
                 [.authGetUser, .selectPolls, .insertVote])

/-- `deletePoll` from `poll-actions.ts`.  The delete filters by id AND
owner, so it silently affects zero rows for a non-owner; a delete that
matches no row is still a backend success (`error: null`).  Removal of
the votes of deleted polls models the storage layer's cascading
referential policy, which the spec assumes rather than the handler
implementing it. -/
def deletePoll (id : String) (sess : Session) (db : Db) :
    ActionResult × Db × List BackendOp :=
  if !isValidUUID id then
    ({ error := some "Invalid poll ID format." }, db, [])
  else
    match sess with
    | .authError =>
        ({ error := some "Authentication error. Please try again." }, db, [.authGetUser])
    | .anon =>
        ({ error := some "You must be logged in to delete a poll." }, db, [.authGetUser])
    | .user uid =>
        let removed := db.polls.filter (fun p => p.id == id && p.user_id == uid)
        ({ error := none },
         { polls := db.polls.filter (fun p => !(p.id == id && p.user_id == uid)),
           votes := db.votes.filter (fun v => !(removed.any (fun p => p.id == v.poll_id))) },
         [.authGetUser, .deletePolls])

/-- `updatePoll` from `poll-actions.ts`.  The UUID-shape check runs
before the form fields are read, so a malformed id returns before the
`null.trim()` `TypeError` can occur; the update filters by id AND
owner (silent no-op for a non-owner). -/
def updatePoll (pollId : String) (fd : FormData) (sess : Session) (db : Db) :
    Except JsError (ActionResult × Db × List BackendOp) :=
  if !isValidUUID pollId then
    .ok ({ error := some "Invalid poll ID format." }, db, [])
  else
    match fd.question with
    | none => .error .typeError
    | some rawQ =>
      let question := sanitizeInput rawQ
      let options := processOptions fd.options
      match validatePollInput question options with
      | some msg => .ok ({ error := some msg }, db, [])
      | none =>
        match sess with
        | .authError =>
            .ok ({ error := some "Authentication error. Please try again." }, db, [.authGetUser])
        | .anon =>
            .ok ({ error := some "You must be logged in to update a poll." }, db, [.authGetUser])
        | .user uid =>
            .ok ({ error := none },
                 { db with polls := db.polls.map (fun p =>
                     if p.id == pollId && p.user_id == uid then
                       { p with question := question, options := options }
                     else p) },
                 [.authGetUser, .updatePolls])

/-! ## The at-most-one-vote invariant -/

/-- Two vote rows clash when they are attributed votes by the same
user on the same poll. -/
def VoteClash (v w : Vote) : Prop :=
  v.poll_id = w.poll_id ∧ v.user_id = w.user_id ∧ v.user_id.isSome

instance (v w : Vote) : Decidable (VoteClash v w) := by
  unfold VoteClash
  infer_instance

/-- Invariant: each authenticated user has at most one vote per poll —
no two rows of the votes table clash. -/
def AtMostOneVotePerUser (db : Db) : Prop :=
  db.votes.Pairwise (fun v w => ¬ VoteClash v w)

instance (db : Db) : Decidable (AtMostOneVotePerUser db) := by
  unfold AtMostOneVotePerUser
  infer_instance

/-! ## Lemmas about the validator -/

theorem jsLength_trim_of_empty {q : String} (h : q = "") : jsLength (jsTrim q) = 0 := by
  subst h; rfl

/-- The `!question ||` disjunct of the first check is redundant: the
empty string trims to length 0 < 3, so the first check fires exactly
when the trimmed question is shorter than 3. -/
theorem questionCheck_iff (q : String) :
    (q.isEmpty || decide (jsLength (jsTrim q) < 3)) = true ↔ jsLength (jsTrim q) < 3 := by
  simp only [Bool.or_eq_true, decide_eq_true_eq, String.isEmpty_iff]
  constructor
  · rintro (rfl | h)
    · decide
    · exact h
  · exact Or.inr

/-- Likewise `!opt ||` in the third check is redundant. -/
theorem optionCheck_iff (o : String) :
    (o.isEmpty || (jsLength (jsTrim o) == 0)) = true ↔ jsLength (jsTrim o) = 0 := by
  simp only [Bool.or_eq_true, beq_iff_eq, String.isEmpty_iff]
  constructor
  · rintro (rfl | h)
    · decide
    · exact h
  · exact Or.inr

theorem validate_q_short {q : String} {opts : List String}
    (h : jsLength (jsTrim q) < 3) :
    validatePollInput q opts = some "Question must be at least 3 characters long." := by
  unfold validatePollInput
  rw [if_pos ((questionCheck_iff q).mpr h)]

theorem validate_few_options {q : String} {opts : List String}
    (hq : 3 ≤ jsLength (jsTrim q)) (h : opts.length < 2) :
    validatePollInput q opts = some "Please provide at least two options." := by
  unfold validatePollInput
  rw [if_neg (fun hc => absurd ((questionCheck_iff q).mp hc) (not_lt.mpr hq)),
    if_pos h]

theorem validate_empty_option {q : String} {opts : List String}
    (hq : 3 ≤ jsLength (jsTrim q)) (hlen : 2 ≤ opts.length)
    (h : ∃ o ∈ opts, jsLength (jsTrim o) = 0) :
    validatePollInput q opts = some "All options must contain valid text." := by
  unfold validatePollInput
  rw [if_neg (fun hc => absurd ((questionCheck_iff q).mp hc) (not_lt.mpr hq)),
    if_neg (not_lt.mpr hlen),
    if_pos]
  obtain ⟨o, ho, hzero⟩ := h
  exact List.any_eq_true.mpr ⟨o, ho, (optionCheck_iff o).mpr hzero⟩

theorem validate_long_question {q : String} {opts : List String}
    (hq : 3 ≤ jsLength (jsTrim q)) (hlen : 2 ≤ opts.length)
    (hopts : ∀ o ∈ opts, jsLength (jsTrim o) ≠ 0) (h : 500 < jsLength q) :
    validatePollInput q opts = some "Question is too long (max 500 characters)." := by
  unfold validatePollInput
  rw [if_neg (fun hc => absurd ((questionCheck_iff q).mp hc) (not_lt.mpr hq)),
    if_neg (not_lt.mpr hlen),
    if_neg, if_pos h]
  intro hc
  obtain ⟨o, ho, hchk⟩ := List.any_eq_true.mp hc
  exact hopts o ho ((optionCheck_iff o).mp hchk)

theorem validate_long_option {q : String} {opts : List String}
    (hq : 3 ≤ jsLength (jsTrim q)) (hlen : 2 ≤ opts.length)
    (hopts : ∀ o ∈ opts, jsLength (jsTrim o) ≠ 0) (hql : jsLength q ≤ 500)
    (h : ∃ o ∈ opts, 200 < jsLength o) :
    validatePollInput q opts = some "Options are too long (max 200 characters each)." := by
  unfold validatePollInput
  rw [if_neg (fun hc => absurd ((questionCheck_iff q).mp hc) (not_lt.mpr hq)),
    if_neg (not_lt.mpr hlen),
    if_neg, if_neg (not_lt.mpr hql), if_pos]
  · obtain ⟨o, ho, hlong⟩ := h
    exact List.any_eq_true.mpr ⟨o, ho, decide_eq_true hlong⟩
  · intro hc
    obtain ⟨o, ho, hchk⟩ := List.any_eq_true.mp hc
    exact hopts o ho ((optionCheck_iff o).mp hchk)

theorem validate_ok {q : String} {opts : List String}
    (hq : 3 ≤ jsLength (jsTrim q)) (hlen : 2 ≤ opts.length)
    (hopts : ∀ o ∈ opts, jsLength (jsTrim o) ≠ 0) (hql : jsLength q ≤ 500)
    (hol : ∀ o ∈ opts, jsLength o ≤ 200) :
    validatePollInput q opts = none := by
  unfold validatePollInput
  rw [if_neg (fun hc => absurd ((questionCheck_iff q).mp hc) (not_lt.mpr hq)),
    if_neg (not_lt.mpr hlen),
    if_neg, if_neg (not_lt.mpr hql), if_neg]
  · intro hc
    obtain ⟨o, ho, hchk⟩ := List.any_eq_true.mp hc
    exact absurd (of_decide_eq_true hchk) (not_lt.mpr (hol o ho))
  · intro hc
    obtain ⟨o, ho, hchk⟩ := List.any_eq_true.mp hc
    exact hopts o ho ((optionCheck_iff o).mp hchk)

theorem validate_none_iff (q : String) (opts : List String) :
    validatePollInput q opts = none ↔
      3 ≤ jsLength (jsTrim q) ∧ 2 ≤ opts.length ∧
      (∀ o ∈ opts, jsLength (jsTrim o) ≠ 0) ∧
      jsLength q ≤ 500 ∧ (∀ o ∈ opts, jsLength o ≤ 200) := by
  constructor
  · intro h
    have h1 : 3 ≤ jsLength (jsTrim q) := by
      by_contra hn
      push_neg at hn
      rw [validate_q_short hn] at h
      simp at h
    have h2 : 2 ≤ opts.length := by
      by_contra hn
      push_neg at hn
      rw [validate_few_options h1 hn] at h
      simp at h
    have h3 : ∀ o ∈ opts, jsLength (jsTrim o) ≠ 0 := by
      by_contra hn
      push_neg at hn
      rw [validate_empty_option h1 h2 hn] at h
      simp at h
    have h4 : jsLength q ≤ 500 := by
      by_contra hn
      push_neg at hn
      rw [validate_long_question h1 h2 h3 hn] at h
      simp at h
    have h5 : ∀ o ∈ opts, jsLength o ≤ 200 := by
      by_contra hn
      push_neg at hn
      rw [validate_long_option h1 h2 h3 h4 hn] at h
      simp at h
    exact ⟨h1, h2, h3, h4, h5⟩
  · rintro ⟨h1, h2, h3, h4, h5⟩
    exact validate_ok h1 h2 h3 h4 h5

theorem replaceRemoved_eq_filter (cs : List Char) :
    replaceRemoved cs = cs.filter (fun c => !isRemovedChar c) := by
  induction cs with
  | nil => rfl
  | cons c cs ih =>
      by_cases h : isRemovedChar c = true
      · simp [replaceRemoved, h, ih]
      · simp [replaceRemoved, h, ih]

/-! ## Concrete fixtures used by witnesses and counterexamples -/

def uuidA : String := "123e4567-e89b-12d3-a456-426614174000"

def pollRedBlue : Poll :=
  { id := uuidA, user_id := "alice", question := "Favorite color",
    options := ["Red", "Blue"], created_at := 0 }

def dbRedBlue : Db := { polls := [pollRedBlue], votes := [] }

/-- The spec's sanitizer example, built character by character: the
string `<script>` followed by `a` in apostrophes, an ampersand and `b`
in double quotes, ending in `>`. -/
def specExampleInput : String :=
  String.mk [Char.ofNat 60, 's', 'c', 'r', 'i', 'p', 't', Char.ofNat 62,
             Char.ofNat 39, 'a', Char.ofNat 39, Char.ofNat 38,
             Char.ofNat 34, 'b', Char.ofNat 34, Char.ofNat 62]

end AlxPolly

namespace AlxPolly

/-- C4: `validatePollInput` returns `null` exactly when the trimmed
question has at least 3 UTF-16 units, there are at least 2 options,
no option is empty after trimming, the question has at most 500 units
and every option at most 200; otherwise it returns the message of the
first failing check in the fixed order short question, too few
options, empty option, long question, long option; in particular any
option list shorter than 2 yields a non-null error. -/
theorem C4_validator_first_failing_check (q : String) (opts : List String) :
    (validatePollInput q opts = none ↔
      3 ≤ jsLength (jsTrim q) ∧ 2 ≤ opts.length ∧
      (∀ o ∈ opts, jsLength (jsTrim o) ≠ 0) ∧
      jsLength q ≤ 500 ∧ (∀ o ∈ opts, jsLength o ≤ 200)) ∧
    (jsLength (jsTrim q) < 3 →
      validatePollInput q opts = some "Question must be at least 3 characters long.") ∧
    (3 ≤ jsLength (jsTrim q) → opts.length < 2 →
      validatePollInput q opts = some "Please provide at least two options.") ∧
    (3 ≤ jsLength (jsTrim q) → 2 ≤ opts.length →
      (∃ o ∈ opts, jsLength (jsTrim o) = 0) →
      validatePollInput q opts = some "All options must contain valid text.") ∧
    (3 ≤ jsLength (jsTrim q) → 2 ≤ opts.length →
      (∀ o ∈ opts, jsLength (jsTrim o) ≠ 0) → 500 < jsLength q →
      validatePollInput q opts = some "Question is too long (max 500 characters).") ∧
    (3 ≤ jsLength (jsTrim q) → 2 ≤ opts.length →
      (∀ o ∈ opts, jsLength (jsTrim o) ≠ 0) → jsLength q ≤ 500 →
      (∃ o ∈ opts, 200 < jsLength o) →
      validatePollInput q opts = some "Options are too long (max 200 characters each).") ∧
    (opts.length < 2 → (validatePollInput q opts).isSome = true) := by
  refine ⟨validate_none_iff q opts, fun h => validate_q_short h,
    fun hq h => validate_few_options hq h,
    fun hq hl h => validate_empty_option hq hl h,
    fun hq hl ho h => validate_long_question hq hl ho h,
    fun hq hl ho hql h => validate_long_option hq hl ho hql h, ?_⟩
  intro h
  by_cases hq : 3 ≤ jsLength (jsTrim q)
  · rw [validate_few_options hq h]; rfl
  · push_neg at hq
    rw [validate_q_short hq]; rfl

/-- Witness for C4 at concrete inputs: a one-option list trips the
too-few-options error even though the question is valid. -/
theorem C4_validator_witness :
    validatePollInput "Favorite color" ["Red"] = some "Please provide at least two options." :=
  (C4_validator_first_failing_check "Favorite color" ["Red"]).2.2.1 (by decide) (by decide)

/-- C9: `sanitizeInput` trims the input and then removes every
occurrence of the five characters of the class `[<>"'&]`, so its
output contains none of them. -/
theorem C9_sanitizeInput_trim_then_remove (s : String) :
    sanitizeInput s = String.mk ((jsTrim s).data.filter (fun c => !isRemovedChar c)) ∧
    ∀ c ∈ (sanitizeInput s).data, isRemovedChar c = false := by
  constructor
  · unfold sanitizeInput
    rw [replaceRemoved_eq_filter]
  · intro c hc
    unfold sanitizeInput at hc
    rw [replaceRemoved_eq_filter] at hc
    have hm : c ∈ ((jsTrim s).data.filter (fun c => !isRemovedChar c)) := hc
    obtain ⟨-, h2⟩ := List.mem_filter.mp hm
    simpa using h2

/-- Witness for C9 on the spec's example string: the letter `s`
survives sanitization and is not one of the removed characters. -/
theorem C9_sanitize_witness :
    ('s' ∈ (sanitizeInput specExampleInput).data) ∧ isRemovedChar 's' = false :=
  ⟨by decide, (C9_sanitizeInput_trim_then_remove specExampleInput).2 's' (by decide)⟩

/-- C6: every poll-id-accepting handler rejects an id that fails the
8-4-4-4-12 hex shape with "Invalid poll ID format.", leaving the
database unchanged and performing no backend call. -/
theorem C6_malformed_id_early_reject (id : String) (fd : FormData) (idx : JsNumber)
    (sess : Session) (db : Db) (h : isValidUUID id = false) :
    getPollById id db = ({ poll := none, error := some "Invalid poll ID format." }, db, []) ∧
    submitVote id idx sess db = ({ error := some "Invalid poll ID format." }, db, []) ∧
    deletePoll id sess db = ({ error := some "Invalid poll ID format." }, db, []) ∧
    updatePoll id fd sess db = .ok ({ error := some "Invalid poll ID format." }, db, []) := by
  unfold getPollById submitVote deletePoll updatePoll
  simp [h]

/-- Witness for C6: `getPollById "abc"` on a concrete store. -/
theorem C6_malformed_id_witness :
    getPollById "abc" dbRedBlue =
      ({ poll := none, error := some "Invalid poll ID format." }, dbRedBlue, []) :=
  (C6_malformed_id_early_reject "abc" ⟨none, []⟩ .nonInt .anon dbRedBlue (by decide)).1

/-- C5: `submitVote` answers "Invalid option selection." and inserts
nothing when the option index is not a non-negative integer (with no
backend call at all) or when it is at least the number of options of
the fetched poll (after the poll select, before any insert). -/
theorem C5_submitVote_invalid_index (pid : String) (idx : Int) (sess : Session)
    (db : Db) (P : Poll) (hid : isValidUUID pid = true)
    (hfind : singleRow (db.polls.filter (fun p => p.id == pid)) = some P) :
    submitVote pid .nonInt sess db = ({ error := some "Invalid option selection." }, db, []) ∧
    (idx < 0 →
      submitVote pid (.int idx) sess db =
        ({ error := some "Invalid option selection." }, db, [])) ∧
    (0 ≤ idx → (P.options.length : Int) ≤ idx →
      submitVote pid (.int idx) sess db =
        ({ error := some "Invalid option selection." }, db, [.authGetUser, .selectPolls])) := by
  unfold submitVote
  simp only [hid, Bool.not_true, Bool.false_eq_true, if_false, hfind]
  refine ⟨trivial, fun hneg => ?_, fun hpos hge => ?_⟩
  · rw [if_pos hneg]
  · rw [if_neg (not_lt.mpr hpos), if_pos hge]

/-- Witness for C5: index 5 against the two-option fixture poll. -/
theorem C5_submitVote_witness :
    submitVote uuidA (.int 5) .anon dbRedBlue =
      ({ error := some "Invalid option selection." }, dbRedBlue,
       [.authGetUser, .selectPolls]) :=
  (C5_submitVote_invalid_index uuidA 5 .anon dbRedBlue pollRedBlue
    (by decide) (by decide)).2.2 (by decide) (by decide)

/-- One anonymous `submitVote` call on an existing poll with a valid
index: no duplicate-vote lookup happens and the vote is inserted with
a null user id. -/
theorem submitVote_anon_success {pid : String} {idx : Int} {sess : Session} {db : Db}
    {P : Poll} (hid : isValidUUID pid = true)
    (hfind : singleRow (db.polls.filter (fun p => p.id == pid)) = some P)
    (hidx : 0 ≤ idx) (hlt : idx < (P.options.length : Int))
    (hsess : sess.currentUser = none) :
    submitVote pid (.int idx) sess db =
      ({ error := none }, { db with votes := db.votes ++ [⟨pid, none, idx⟩] },
       [.authGetUser, .selectPolls, .insertVote]) := by
  unfold submitVote
  simp only [hid, Bool.not_true, Bool.false_eq_true, if_false, hfind, hsess]
  rw [if_neg (not_lt.mpr hidx), if_neg (not_le.mpr hlt)]

/-- `n` successive anonymous `submitVote` calls on the same poll,
together with the conjunction of all their success flags. -/
def repeatAnonVote (pid : String) (idx : Int) : Nat → Db → Db × Bool
  | 0, db => (db, true)
  | n + 1, db =>
      let step := submitVote pid (.int idx) .anon db
      let rest := repeatAnonVote pid idx n step.2.1
      (rest.1, (step.1.error == none) && rest.2)

theorem repeatAnonVote_ok (pid : String) (idx : Int) (P : Poll)
    (hid : isValidUUID pid = true) (hidx : 0 ≤ idx)
    (hlt : idx < (P.options.length : Int)) :
    ∀ (n : Nat) (db : Db), singleRow (db.polls.filter (fun p => p.id == pid)) = some P →
      (repeatAnonVote pid idx n db).2 = true ∧
      (repeatAnonVote pid idx n db).1 =
        { db with votes := db.votes ++ List.replicate n ⟨pid, none, idx⟩ } := by
  intro n
  induction n with
  | zero =>
      intro db hfind
      exact ⟨rfl, by simp [repeatAnonVote]⟩
  | succ n ih =>
      intro db hfind
      have hstep := @submitVote_anon_success pid idx Session.anon db P hid hfind hidx hlt rfl
      have ihd := ih { db with votes := db.votes ++ [⟨pid, none, idx⟩] } hfind
      unfold repeatAnonVote
      rw [hstep]
      refine ⟨by simp [ihd.1], ?_⟩
      show (repeatAnonVote pid idx n { db with votes := db.votes ++ [⟨pid, none, idx⟩] }).1 = _
      rw [ihd.2]
      simp [List.replicate_succ]

end AlxPolly

namespace AlxPolly

/-- C7: an unauthenticated `submitVote` performs no duplicate-vote
lookup and, given an existing poll and a valid option index, inserts a
vote with null user id and returns `{error: null}`; consequently any
number of successive anonymous votes on the same poll all succeed,
each appending one more vote row. -/
theorem C7_anonymous_votes_unconstrained (pid : String) (idx : Int) (sess : Session)
    (db : Db) (P : Poll) (hid : isValidUUID pid = true)
    (hfind : singleRow (db.polls.filter (fun p => p.id == pid)) = some P)
    (hidx : 0 ≤ idx) (hlt : idx < (P.options.length : Int))
    (hsess : sess.currentUser = none) :
    submitVote pid (.int idx) sess db =
      ({ error := none }, { db with votes := db.votes ++ [⟨pid, none, idx⟩] },
       [.authGetUser, .selectPolls, .insertVote]) ∧
    BackendOp.selectVotes ∉ (submitVote pid (.int idx) sess db).2.2 ∧
    ∀ n, (repeatAnonVote pid idx n db).2 = true ∧
      (repeatAnonVote pid idx n db).1 =
        { db with votes := db.votes ++ List.replicate n ⟨pid, none, idx⟩ } := by
  have hone := submitVote_anon_success hid hfind hidx hlt hsess
  refine ⟨hone, ?_, fun n => repeatAnonVote_ok pid idx P hid hidx hlt n db hfind⟩
  rw [hone]
  simp

/-- Witness for C7: three successive anonymous votes on the fixture
poll all succeed. -/
theorem C7_anonymous_votes_witness :
    (repeatAnonVote uuidA 1 3 dbRedBlue).2 = true ∧
    (repeatAnonVote uuidA 1 3 dbRedBlue).1 =
      { dbRedBlue with votes := dbRedBlue.votes ++ List.replicate 3 ⟨uuidA, none, 1⟩ } :=
  (C7_anonymous_votes_unconstrained uuidA 1 .anon dbRedBlue pollRedBlue
    (by decide) (by decide) (by decide) (by decide) rfl).2.2 3

/-- C10: `createPoll` and `updatePoll` drop empty-string options
before sanitization (the falsy filter), so `["A", "", "B"]` is
processed as `["A", "B"]` and never trips the empty-option message
(but can trip the fewer-than-two-options check), while a
whitespace-only option survives the filter, sanitizes to the empty
string and is rejected by the validator. -/
theorem C10_falsy_option_filter (pid : String) (sess : Session) (db : Db)
    (newId : String) (now : Nat) (hid : isValidUUID pid = true) :
    processOptions ["A", "", "B"] = ["A", "B"] ∧
    (∀ uid, createPoll ⟨some "Valid question", ["A", "", "B"]⟩ (.user uid) db newId now =
      .ok ({ error := none },
           { db with polls := db.polls ++ [⟨newId, uid, "Valid question", ["A", "B"], now⟩] },
           [.authGetUser, .insertPoll])) ∧
    createPoll ⟨some "Valid question", ["A", ""]⟩ sess db newId now =
      .ok ({ error := some "Please provide at least two options." }, db, []) ∧
    createPoll ⟨some "Valid question", ["A", " ", "B"]⟩ sess db newId now =
      .ok ({ error := some "All options must contain valid text." }, db, []) ∧
    updatePoll pid ⟨some "Valid question", ["A", ""]⟩ sess db =
      .ok ({ error := some "Please provide at least two options." }, db, []) ∧
    updatePoll pid ⟨some "Valid question", ["A", " ", "B"]⟩ sess db =
      .ok ({ error := some "All options must contain valid text." }, db, []) := by
  refine ⟨by decide, fun uid => rfl, rfl, rfl, ?_, ?_⟩ <;>
    · unfold updatePoll
      rw [hid]
      rfl

/-- Witness for C10 at a concrete id and store. -/
theorem C10_falsy_option_filter_witness :
    updatePoll uuidA ⟨some "Valid question", ["A", " ", "B"]⟩ .anon dbRedBlue =
      .ok ({ error := some "All options must contain valid text." }, dbRedBlue, []) :=
  (C10_falsy_option_filter uuidA .anon dbRedBlue "x" 0 (by decide)).2.2.2.2.2

/-- C8: creating a poll with the spec's example question and options
and then fetching it by the identifier of the inserted row returns a
poll whose question and options are exactly the stored (sanitized)
inputs. -/
theorem C8_create_then_get_roundtrip (db : Db) (uid newId : String) (now : Nat)
    (hid : isValidUUID newId = true)
    (hfresh : ∀ P ∈ db.polls, P.id ≠ newId) :
    createPoll ⟨some "What is your favorite color?", ["Red", "Blue"]⟩ (.user uid) db newId now =
      .ok ({ error := none },
           { db with polls := db.polls ++
               [⟨newId, uid, "What is your favorite color?", ["Red", "Blue"], now⟩] },
           [.authGetUser, .insertPoll]) ∧
    getPollById newId
        { db with polls := db.polls ++
            [⟨newId, uid, "What is your favorite color?", ["Red", "Blue"], now⟩] } =
      ({ poll := some ⟨newId, uid, "What is your favorite color?", ["Red", "Blue"], now⟩,
         error := none },
       { db with polls := db.polls ++
           [⟨newId, uid, "What is your favorite color?", ["Red", "Blue"], now⟩] },
       [.selectPolls]) := by
  constructor
  · rfl
  · unfold getPollById
    rw [hid]
    have hfilter : (db.polls ++
        [(⟨newId, uid, "What is your favorite color?", ["Red", "Blue"], now⟩ : Poll)]).filter
          (fun p => p.id == newId) =
        [⟨newId, uid, "What is your favorite color?", ["Red", "Blue"], now⟩] := by
      rw [List.filter_append]
      have h1 : db.polls.filter (fun p => p.id == newId) = [] := by
        rw [List.filter_eq_nil_iff]
        intro P hP
        simpa using hfresh P hP
      rw [h1]
      simp
    simp [hfilter, singleRow]

/-- Witness for C8 starting from the empty store. -/
theorem C8_roundtrip_witness :
    (getPollById uuidA
        { polls := [] ++ [⟨uuidA, "alice", "What is your favorite color?", ["Red", "Blue"], 0⟩],
          votes := [] }).1.poll =
      some ⟨uuidA, "alice", "What is your favorite color?", ["Red", "Blue"], 0⟩ := by
  rw [(C8_create_then_get_roundtrip ⟨[], []⟩ "alice" uuidA 0 (by decide)
    (by intro P hP; simp at hP)).2]

/-! ## Authentication handlers (`app/lib/actions/auth-actions.ts`)

Thin pass-throughs to the external auth provider.  The provider is a
collaborator outside this repository, so its reply to a credential
call — the error message of `signInWithPassword` / `signUp` /
`signOut`, or success — is an input of the model; the handlers only
map it.  The user and session records are provider-owned; the model
keeps the authenticated identity (the id), the only field the poll
handlers read. -/

/-- `login` from `auth-actions.ts`: forwards email and password to
`signInWithPassword` and returns the provider error message
verbatim on failure, else success. -/
def login (_email _password : String) (reply : Option String) : ActionResult :=
  match reply with
  | some msg => { error := some msg }
  | none => { error := none }

/-- `register` from `auth-actions.ts`: forwards email, password and
the display-name metadata to `signUp` and returns the provider error
message verbatim on failure, else success. -/
def register (_name _email _password : String) (reply : Option String) : ActionResult :=
  match reply with
  | some msg => { error := some msg }
  | none => { error := none }

/-- `logout` from `auth-actions.ts`: calls `signOut` and maps its
reply the same way. -/
def logout (reply : Option String) : ActionResult :=
  match reply with
  | some msg => { error := some msg }
  | none => { error := none }

/-- `getCurrentUser` from `auth-actions.ts`: returns `data.user`
directly — the bare identity or `null` — not a `{payload, error}`
result object, and with no failure path. -/
def getCurrentUser (sess : Session) : Option String :=
  sess.currentUser

/-- `getSession` from `auth-actions.ts`: returns `data.session`
directly — the bare session record or `null`, again not a result
object.  The record has provider-owned fields (tokens, expiry) that
are opaque to this layer; the model keeps the identity it carries. -/
def getSession : Session → Option String
  | .authError => none
  | .anon => none
  | .user uid => some uid

/-- C3 counterexample: `createPoll` on a `FormData` whose `question`
field is absent raises a `TypeError` (the `null.trim()` call inside
`sanitizeInput`) instead of returning a result object; moreover
`getCurrentUser` and `getSession` return the bare identity and
session value — an `Option`, as their embedded return types show —
rather than a `{<payload>?, error}` result object, so the uniform
shape the claim asserts fails for them as well. -/
theorem C3_counterexample :
    createPoll ⟨none, ["Red", "Blue"]⟩ .anon dbRedBlue "x" 0 = .error .typeError ∧
    getCurrentUser (.user "alice") = some "alice" ∧
    getSession (.user "alice") = some "alice" :=
  ⟨rfl, rfl, rfl⟩

/-! ## Non-owner deletes -/

/-- A non-matching delete filter removes nothing and cascades
nothing. -/
theorem deletePoll_no_match {id uid : String} {db : Db}
    (hid : isValidUUID id = true)
    (hno : ∀ P ∈ db.polls, ¬(P.id = id ∧ P.user_id = uid)) :
    deletePoll id (.user uid) db = ({ error := none }, db, [.authGetUser, .deletePolls]) := by
  unfold deletePoll
  simp only [hid, Bool.not_true, Bool.false_eq_true, if_false]
  have hrem : db.polls.filter (fun p => p.id == id && p.user_id == uid) = [] := by
    rw [List.filter_eq_nil_iff]
    intro P hP
    by_cases h1 : P.id = id
    · have h2 : P.user_id ≠ uid := fun h2 => hno P hP ⟨h1, h2⟩
      simp [h1, h2]
    · simp [h1]
  have hkept : db.polls.filter (fun p => !(p.id == id && p.user_id == uid)) = db.polls := by
    rw [List.filter_eq_self]
    intro P hP
    by_cases h1 : P.id = id
    · have h2 : P.user_id ≠ uid := fun h2 => hno P hP ⟨h1, h2⟩
      simp [h1, h2]
    · simp [h1]
  simp only [hrem, hkept, List.any_nil, Bool.not_false, List.filter_true]

/-- The fixture store together with a third party's vote on the
fixture poll. -/
def dbWithVote : Db :=
  { polls := [pollRedBlue], votes := [⟨uuidA, some "carol", 0⟩] }

end AlxPolly

namespace AlxPolly

/-- C1 counterexample: `deletePoll` called by authenticated non-owner
"bob" on the existing poll of "alice" returns `{error: null}` — a
success, not the non-null generic failure message the claim asserts —
while indeed leaving the poll and its votes unchanged. -/
theorem C1_counterexample :
    pollRedBlue ∈ dbWithVote.polls ∧ pollRedBlue.user_id ≠ "bob" ∧
    (deletePoll uuidA (.user "bob") dbWithVote).1.error = none ∧
    (deletePoll uuidA (.user "bob") dbWithVote).2.1 = dbWithVote := by decide

/-- C1 (amended): a valid-shaped delete by an authenticated caller who
owns no poll with that id — a non-owner of every poll carrying the id,
and in particular the caller for a genuinely missing id — returns
`{error: null}` and leaves the store entirely unchanged, so the two
situations are indistinguishable. -/
theorem C1_nonowner_delete_silent (id uid : String) (db : Db)
    (hid : isValidUUID id = true)
    (hno : ∀ P ∈ db.polls, ¬(P.id = id ∧ P.user_id = uid)) :
    deletePoll id (.user uid) db = ({ error := none }, db, [.authGetUser, .deletePolls]) :=
  deletePoll_no_match hid hno

/-- Witness for the amended C1 on the fixture store. -/
theorem C1_nonowner_delete_witness :
    deletePoll uuidA (.user "bob") dbWithVote =
      ({ error := none }, dbWithVote, [.authGetUser, .deletePolls]) :=
  C1_nonowner_delete_silent uuidA "bob" dbWithVote (by decide) (by decide)

end AlxPolly

namespace AlxPolly

/-! ## Invariant preservation lemmas -/

theorem clash_filter_length_le_one (db : Db) (h : AtMostOneVotePerUser db)
    (pid uid : String) :
    (db.votes.filter (fun v => v.poll_id == pid && v.user_id == some uid)).length ≤ 1 := by
  rcases hF : db.votes.filter (fun v => v.poll_id == pid && v.user_id == some uid)
    with - | ⟨a, - | ⟨b, t⟩⟩
  · rw [hF]; simp
  · rw [hF]; simp
  · exfalso
    have hpw : (db.votes.filter
        (fun v => v.poll_id == pid && v.user_id == some uid)).Pairwise
        (fun v w => ¬ VoteClash v w) := h.sublist (List.filter_sublist _)
    rw [hF] at hpw
    have hab : ¬ VoteClash a b := (List.pairwise_cons.mp hpw).1 b (by simp)
    have ha : a ∈ db.votes.filter (fun v => v.poll_id == pid && v.user_id == some uid) := by
      rw [hF]; simp
    have hb : b ∈ db.votes.filter (fun v => v.poll_id == pid && v.user_id == some uid) := by
      rw [hF]; simp
    obtain ⟨-, hpa⟩ := List.mem_filter.mp ha
    obtain ⟨-, hpb⟩ := List.mem_filter.mp hb
    simp only [Bool.and_eq_true, beq_iff_eq] at hpa hpb
    exact hab ⟨hpa.1.trans hpb.1.symm, hpa.2.trans hpb.2.symm, by rw [hpa.2]; rfl⟩

theorem singleRow_some_of_existing_vote {db : Db} (h : AtMostOneVotePerUser db)
    {pid uid : String} {v : Vote} (hv : v ∈ db.votes) (hp : v.poll_id = pid)
    (hu : v.user_id = some uid) :
    singleRow (db.votes.filter (fun w => w.poll_id == pid && w.user_id == some uid)) =
      some v := by
  have hmem : v ∈ db.votes.filter (fun w => w.poll_id == pid && w.user_id == some uid) :=
    List.mem_filter.mpr ⟨hv, by simp [hp, hu]⟩
  have hle := clash_filter_length_le_one db h pid uid
  rcases hF : db.votes.filter (fun w => w.poll_id == pid && w.user_id == some uid)
    with - | ⟨a, - | ⟨b, t⟩⟩
  · rw [hF] at hmem; simp at hmem
  · rw [hF] at hmem
    simp at hmem
    subst hmem
    simp [hF, singleRow]
  · rw [hF] at hle
    simp at hle

theorem no_vote_of_singleRow_none {db : Db} (h : AtMostOneVotePerUser db)
    {pid uid : String}
    (hnone : singleRow (db.votes.filter
      (fun w => w.poll_id == pid && w.user_id == some uid)) = none) :
    ∀ v ∈ db.votes, ¬(v.poll_id = pid ∧ v.user_id = some uid) := by
  rintro v hv ⟨hp, hu⟩
  rw [singleRow_some_of_existing_vote h hv hp hu] at hnone
  exact Option.noConfusion hnone

/-- Appending a vote that clashes with no stored vote preserves the
invariant. -/
theorem inv_append_vote {db : Db} (h : AtMostOneVotePerUser db) (v : Vote)
    (hnew : ∀ w ∈ db.votes, ¬ VoteClash w v) :
    AtMostOneVotePerUser { db with votes := db.votes ++ [v] } := by
  unfold AtMostOneVotePerUser
  rw [List.pairwise_append]
  refine ⟨h, List.pairwise_singleton _ _, fun a ha b hb => ?_⟩
  simp only [List.mem_singleton] at hb
  subst hb
  exact hnew a ha

theorem inv_submitVote (pid : String) (idx : JsNumber) (sess : Session) {db : Db}
    (h : AtMostOneVotePerUser db) :
    AtMostOneVotePerUser (submitVote pid idx sess db).2.1 := by
  unfold submitVote
  cases hid : isValidUUID pid
  · exact h
  · simp only [Bool.not_true, Bool.false_eq_true, if_false]
    cases idx with
    | nonInt => exact h
    | int n =>
      dsimp only
      by_cases hneg : n < 0
      · rw [if_pos hneg]; exact h
      · rw [if_neg hneg]
        cases hfind : singleRow (db.polls.filter (fun p => p.id == pid)) with
        | none => exact h
        | some poll =>
          dsimp only
          by_cases hlen : (poll.options.length : Int) ≤ n
          · rw [if_pos hlen]; exact h
          · rw [if_neg hlen]
            cases hcu : sess.currentUser with
            | none =>
              dsimp only
              refine inv_append_vote h _ fun w hw => ?_
              rintro ⟨-, hu, hs⟩
              rw [hu] at hs
              simp at hs
            | some uid =>
              dsimp only
              cases hvote : singleRow (db.votes.filter
                  (fun w => w.poll_id == pid && w.user_id == some uid)) with
              | some w => exact h
              | none =>
                refine inv_append_vote h _ fun w hw => ?_
                rintro ⟨hp, hu, -⟩
                exact no_vote_of_singleRow_none h hvote w hw ⟨hp, hu⟩

theorem inv_deletePoll (id : String) (sess : Session) {db : Db}
    (h : AtMostOneVotePerUser db) :
    AtMostOneVotePerUser (deletePoll id sess db).2.1 := by
  unfold deletePoll
  cases hid : isValidUUID id
  · exact h
  · simp only [Bool.not_true, Bool.false_eq_true, if_false]
    cases sess with
    | authError => exact h
    | anon => exact h
    | user uid => exact h.sublist (List.filter_sublist _)

/-- The invariant only depends on the votes table. -/
theorem inv_of_votes_eq {db db' : Db} (h : AtMostOneVotePerUser db)
    (he : db'.votes = db.votes) : AtMostOneVotePerUser db' := by
  unfold AtMostOneVotePerUser at *
  rw [he]
  exact h

theorem createPoll_ok_votes {fd : FormData} {sess : Session} {db : Db} {newId : String}
    {now : Nat} {out : ActionResult × Db × List BackendOp}
    (hok : createPoll fd sess db newId now = .ok out) : out.2.1.votes = db.votes := by
  rcases fd with ⟨q, opts⟩
  cases q with
  | none => exact Except.noConfusion hok
  | some q =>
    unfold createPoll at hok
    dsimp only at hok
    rcases hv : validatePollInput (sanitizeInput q) (processOptions opts) with - | msg
    all_goals rw [hv] at hok
    · cases sess with
      | authError => injection hok with h; subst h; rfl
      | anon => injection hok with h; subst h; rfl
      | user uid => injection hok with h; subst h; rfl
    · injection hok with h; subst h; rfl

theorem updatePoll_ok_votes {pid : String} {fd : FormData} {sess : Session} {db : Db}
    {out : ActionResult × Db × List BackendOp}
    (hok : updatePoll pid fd sess db = .ok out) : out.2.1.votes = db.votes := by
  unfold updatePoll at hok
  cases hid : isValidUUID pid
  · rw [hid] at hok
    injection hok with h
    subst h
    rfl
  · rw [hid] at hok
    simp only [Bool.not_true, Bool.false_eq_true, if_false] at hok
    rcases fd with ⟨q, opts⟩
    cases q with
    | none => exact Except.noConfusion hok
    | some q =>
      dsimp only at hok
      rcases hv : validatePollInput (sanitizeInput q) (processOptions opts) with - | msg
      all_goals rw [hv] at hok
      · cases sess with
        | authError => injection hok with h; subst h; rfl
        | anon => injection hok with h; subst h; rfl
        | user uid => injection hok with h; subst h; rfl
      · injection hok with h; subst h; rfl

theorem getPollById_db_eq (id : String) (db : Db) : (getPollById id db).2.1 = db := by
  unfold getPollById
  cases hid : isValidUUID id
  · rfl
  · cases hfind : singleRow (db.polls.filter (fun p => p.id == id)) <;> rfl

theorem getUserPolls_db_eq (sess : Session) (db : Db) : (getUserPolls sess db).2.1 = db := by
  unfold getUserPolls
  cases hcu : sess.currentUser <;> rfl

theorem submitVote_already_voted_db_eq {db : Db} (h : AtMostOneVotePerUser db)
    {pid uid : String} {v : Vote} (hv : v ∈ db.votes) (hp : v.poll_id = pid)
    (hu : v.user_id = some uid) (idx : JsNumber) :
    (submitVote pid idx (.user uid) db).2.1 = db := by
  have hsingle := singleRow_some_of_existing_vote h hv hp hu
  unfold submitVote
  cases hid : isValidUUID pid
  · rfl
  · simp only [Bool.not_true, Bool.false_eq_true, if_false]
    cases idx with
    | nonInt => rfl
    | int n =>
      dsimp only
      by_cases hneg : n < 0
      · rw [if_pos hneg]
      · rw [if_neg hneg]
        cases hfind : singleRow (db.polls.filter (fun p => p.id == pid)) with
        | none => rfl
        | some poll =>
          dsimp only
          by_cases hlen : (poll.options.length : Int) ≤ n
          · rw [if_pos hlen]
          · rw [if_neg hlen]
            simp only [Session.currentUser, hsingle]

theorem submitVote_already_voted_error {db : Db} (h : AtMostOneVotePerUser db)
    {pid uid : String} {v : Vote} (hv : v ∈ db.votes) (hp : v.poll_id = pid)
    (hu : v.user_id = some uid) {P : Poll} {n : Int}
    (hid : isValidUUID pid = true)
    (hfind : singleRow (db.polls.filter (fun p => p.id == pid)) = some P)
    (hpos : 0 ≤ n) (hlt : n < (P.options.length : Int)) :
    submitVote pid (.int n) (.user uid) db =
      ({ error := some "You have already voted on this poll." }, db,
       [.authGetUser, .selectPolls, .selectVotes]) := by
  unfold submitVote
  simp only [hid, Bool.not_true, Bool.false_eq_true, if_false, hfind,
    Session.currentUser]
  rw [if_neg (not_lt.mpr hpos), if_neg (not_le.mpr hlt),
    singleRow_some_of_existing_vote h hv hp hu]

/-- The fixture store in which "bob" has already voted on the fixture
poll. -/
def dbVoted : Db :=
  { polls := [pollRedBlue], votes := [⟨uuidA, some "bob", 0⟩] }

end AlxPolly

namespace AlxPolly

/-- C2 counterexample: "bob" has already voted on the fixture poll and
the store satisfies the invariant, yet a second `submitVote` with
index 5 (the claim quantifies over any index) returns "Invalid option
selection." rather than the already-voted message. -/
theorem C2_counterexample :
    AtMostOneVotePerUser dbVoted ∧
    (⟨uuidA, some "bob", 0⟩ : Vote) ∈ dbVoted.votes ∧
    (submitVote uuidA (.int 5) (.user "bob") dbVoted).1.error =
      some "Invalid option selection." := by decide

/-- C2 (amended): every handler preserves the at-most-one-vote-per-
user-per-poll invariant; a second `submitVote` by an authenticated
user who already has a vote on the poll never changes the store (for
every option-index argument), and returns
"You have already voted on this poll." whenever the index is a valid
option index of that poll (other indices fail earlier validation with
a different message). -/
theorem C2_at_most_one_vote_invariant (db : Db) (h : AtMostOneVotePerUser db) :
    (∀ fd sess newId now out, createPoll fd sess db newId now = .ok out →
      AtMostOneVotePerUser out.2.1) ∧
    (∀ sess, AtMostOneVotePerUser (getUserPolls sess db).2.1) ∧
    (∀ id, AtMostOneVotePerUser (getPollById id db).2.1) ∧
    (∀ pid idx sess, AtMostOneVotePerUser (submitVote pid idx sess db).2.1) ∧
    (∀ id sess, AtMostOneVotePerUser (deletePoll id sess db).2.1) ∧
    (∀ pid fd sess out, updatePoll pid fd sess db = .ok out →
      AtMostOneVotePerUser out.2.1) ∧
    (∀ pid uid v, v ∈ db.votes → v.poll_id = pid → v.user_id = some uid →
      (∀ idx, (submitVote pid idx (.user uid) db).2.1 = db) ∧
      (∀ P n, isValidUUID pid = true →
        singleRow (db.polls.filter (fun p => p.id == pid)) = some P →
        0 ≤ n → n < (P.options.length : Int) →
        submitVote pid (.int n) (.user uid) db =
          ({ error := some "You have already voted on this poll." }, db,
           [.authGetUser, .selectPolls, .selectVotes]))) := by
  refine ⟨fun fd sess newId now out hok => inv_of_votes_eq h (createPoll_ok_votes hok),
    fun sess => by rw [getUserPolls_db_eq]; exact h,
    fun id => by rw [getPollById_db_eq]; exact h,
    fun pid idx sess => inv_submitVote pid idx sess h,
    fun id sess => inv_deletePoll id sess h,
    fun pid fd sess out hok => inv_of_votes_eq h (updatePoll_ok_votes hok),
    fun pid uid v hv hp hu =>
      ⟨fun idx => submitVote_already_voted_db_eq h hv hp hu idx,
       fun P n hid hfind hpos hlt =>
         submitVote_already_voted_error h hv hp hu hid hfind hpos hlt⟩⟩

/-- Witness for the amended C2: bob's second vote with a valid index
is rejected with the already-voted message, leaving the store
unchanged. -/
theorem C2_invariant_witness :
    submitVote uuidA (.int 1) (.user "bob") dbVoted =
      ({ error := some "You have already voted on this poll." }, dbVoted,
       [.authGetUser, .selectPolls, .selectVotes]) :=
  ((C2_at_most_one_vote_invariant dbVoted (by decide)).2.2.2.2.2.2 uuidA "bob"
    ⟨uuidA, some "bob", 0⟩ (by decide) rfl rfl).2 pollRedBlue 1
    (by decide) (by decide) (by decide) (by decide)

/-- C3 (amended), covering every exported handler of both modules:
the poll handlers and the credential pass-throughs `login`,
`register`, `logout` always return a plain result object whose
`error` field is `null` or a fixed message (the pass-throughs
forwarding the provider message verbatim) and never throw, except
that `createPoll` and `updatePoll` raise a `TypeError` exactly when
the form `question` field is absent (`null`), `updatePoll` only when
the id passes the shape check that runs first; `getCurrentUser` and
`getSession` never throw and never fail, but return the bare user /
session value (absent exactly when there is no authenticated user),
not a result object. -/
theorem C3_handlers_return_result_objects :
    (∀ fd sess db newId now,
      (∃ out, createPoll fd sess db newId now = .ok out) ↔ fd.question.isSome = true) ∧
    (∀ pid fd sess db,
      (∃ out, updatePoll pid fd sess db = .ok out) ↔
        (isValidUUID pid = false ∨ fd.question.isSome = true)) ∧
    (∀ sess db, (getUserPolls sess db).1.error = none ∨
      (getUserPolls sess db).1.error = some "Not authenticated") ∧
    (∀ id db, (getPollById id db).1.error = none ∨
      (getPollById id db).1.error = some "Invalid poll ID format." ∨
      (getPollById id db).1.error = some "Poll not found.") ∧
    (∀ pid idx sess db, (submitVote pid idx sess db).1.error = none ∨
      (submitVote pid idx sess db).1.error = some "Invalid poll ID format." ∨
      (submitVote pid idx sess db).1.error = some "Invalid option selection." ∨
      (submitVote pid idx sess db).1.error = some "Poll not found." ∨
      (submitVote pid idx sess db).1.error = some "You have already voted on this poll.") ∧
    (∀ id sess db, (deletePoll id sess db).1.error = none ∨
      (deletePoll id sess db).1.error = some "Invalid poll ID format." ∨
      (deletePoll id sess db).1.error = some "Authentication error. Please try again." ∨
      (deletePoll id sess db).1.error = some "You must be logged in to delete a poll.") ∧
    (∀ email password reply, login email password reply = { error := reply }) ∧
    (∀ dname email password reply, register dname email password reply = { error := reply }) ∧
    (∀ reply, logout reply = { error := reply }) ∧
    (∀ uid, getCurrentUser (.user uid) = some uid ∧ getSession (.user uid) = some uid) ∧
    (∀ sess, sess.currentUser = none → getCurrentUser sess = none ∧ getSession sess = none) := by
  refine ⟨?_, ?_, ?_, ?_, ?_, ?_, ?_, ?_, ?_, ?_, ?_⟩
  · rintro ⟨q, opts⟩ sess db newId now
    cases q with
    | none =>
        refine iff_of_false ?_ (fun h => Bool.noConfusion h)
        rintro ⟨out, hok⟩
        exact Except.noConfusion hok
    | some q =>
        refine iff_of_true ?_ rfl
        unfold createPoll
        dsimp only
        rcases hv : validatePollInput (sanitizeInput q) (processOptions opts) with - | msg
        · cases sess with
          | authError => exact ⟨_, rfl⟩
          | anon => exact ⟨_, rfl⟩
          | user uid => exact ⟨_, rfl⟩
        · exact ⟨_, rfl⟩
  · intro pid fd sess db
    unfold updatePoll
    cases hid : isValidUUID pid
    · exact iff_of_true ⟨_, rfl⟩ (Or.inl rfl)
    · simp only [Bool.not_true, Bool.false_eq_true, if_false]
      rcases fd with ⟨q, opts⟩
      cases q with
      | none =>
          refine iff_of_false ?_ ?_
          · rintro ⟨out, hok⟩
            exact Except.noConfusion hok
          · rintro (h | h)
            · exact Bool.noConfusion h
            · exact Bool.noConfusion h
      | some q =>
          refine iff_of_true ?_ (Or.inr rfl)
          dsimp only
          rcases hv : validatePollInput (sanitizeInput q) (processOptions opts) with - | msg
          · cases sess with
            | authError => exact ⟨_, rfl⟩
            | anon => exact ⟨_, rfl⟩
            | user uid => exact ⟨_, rfl⟩
          · exact ⟨_, rfl⟩
  · intro sess db
    unfold getUserPolls
    cases hcu : sess.currentUser
    · exact Or.inr rfl
    · exact Or.inl rfl
  · intro id db
    unfold getPollById
    cases hid : isValidUUID id
    · exact Or.inr (Or.inl rfl)
    · cases hfind : singleRow (db.polls.filter (fun p => p.id == id))
      · exact Or.inr (Or.inr rfl)
      · exact Or.inl rfl
  · intro pid idx sess db
    unfold submitVote
    cases hid : isValidUUID pid
    · exact Or.inr (Or.inl rfl)
    · simp only [Bool.not_true, Bool.false_eq_true, if_false]
      cases idx with
      | nonInt => exact Or.inr (Or.inr (Or.inl rfl))
      | int n =>
        dsimp only
        by_cases hneg : n < 0
        · rw [if_pos hneg]
          exact Or.inr (Or.inr (Or.inl rfl))
        · rw [if_neg hneg]
          cases hfind : singleRow (db.polls.filter (fun p => p.id == pid)) with
          | none => exact Or.inr (Or.inr (Or.inr (Or.inl rfl)))
          | some poll =>
            dsimp only
            by_cases hlen : (poll.options.length : Int) ≤ n
            · rw [if_pos hlen]
              exact Or.inr (Or.inr (Or.inl rfl))
            · rw [if_neg hlen]
              cases hcu : sess.currentUser with
              | none => exact Or.inl rfl
              | some uid =>
                dsimp only
                cases hvote : singleRow (db.votes.filter
                    (fun w => w.poll_id == pid && w.user_id == some uid)) with
                | none => exact Or.inl rfl
                | some w => exact Or.inr (Or.inr (Or.inr (Or.inr rfl)))
  · intro id sess db
    unfold deletePoll
    cases hid : isValidUUID id
    · exact Or.inr (Or.inl rfl)
    · cases sess with
      | authError => exact Or.inr (Or.inr (Or.inl rfl))
      | anon => exact Or.inr (Or.inr (Or.inr rfl))
      | user uid => exact Or.inl rfl
  · intro email password reply
    cases reply <;> rfl
  · intro dname email password reply
    cases reply <;> rfl
  · intro reply
    cases reply <;> rfl
  · intro uid
    exact ⟨rfl, rfl⟩
  · intro sess h
    cases sess with
    | authError => exact ⟨rfl, rfl⟩
    | anon => exact ⟨rfl, rfl⟩
    | user uid => exact Option.noConfusion h

/-- Witness for the amended C3: with the `question` field present, a
`createPoll` call does return a result object. -/
theorem C3_totality_witness :
    ∃ out, createPoll ⟨some "Hi?", ["Red", "Blue"]⟩ .anon dbRedBlue "x" 0 = .ok out :=
  (C3_handlers_return_result_objects.1 ⟨some "Hi?", ["Red", "Blue"]⟩ .anon dbRedBlue
    "x" 0).mpr rfl

end AlxPolly
